import Mathlib

/-!
Shallow embedding of the 1-D thermal-hydraulic core of the sCO2_reactor
repository (src/optimization/ht_functions.py and
src/optimization/thermal_mass_opt.py), together with theorems settling the
spec claims about it.

Python floats are modelled as real numbers; Python `**` with a float
exponent is `Real.rpow`, with an integer literal exponent it is `zpow`;
`math.log x` is `Real.log`, `math.log x 10` is `Real.log x / Real.log 10`,
`math.sqrt` is `Real.sqrt`, `math.ceil` is `Int.ceil`.  Fallible operations
(attribute lookup, importing a name) return `Except`.
-/

namespace SCO2

noncomputable section

open scoped Classical

/-- Embeds `pipeflow_turbulent` (ht_functions.py lines 11-45).  Returns the
pair `(Nusselt_L, f)`.  The statement `Nusselt_L*(1+(1/LD)**0.7)` on line 43
of the source computes a value and discards it, so it leaves no trace in a
pure embedding; the returned Nusselt number is the uncorrected one. -/
def pipeflow_turbulent (Re Pr LD relrough : ℝ) : ℝ × ℝ :=
  let f_fd0 : ℝ :=
    (-0.001570232 / Real.log Re + 0.394203137 / (Real.log Re) ^ 2 +
      2.534153311 / (Real.log Re) ^ 3) * 4
  let f_fd : ℝ :=
    if relrough > 1e-5 then
      (-2 * (Real.log (relrough / 3.71 -
          1.975 / Re * Real.log ((relrough / 3.93) ^ ((1.092 : ℝ)) +
            7.627 / (Re + 395.9))) / Real.log 10)) ^ (-2 : ℤ)
    else f_fd0
  let Nusselt_L0 : ℝ :=
    ((f_fd / 8) * (Re - 1000) * Pr) /
      (1 + 12.7 * Real.sqrt (f_fd / 8) * (Pr ^ ((2 : ℝ) / 3) - 1))
  let Nusselt_L : ℝ :=
    if Pr < 0.5 then
      let Nusselt_L_lp : ℝ := 4.8 + 0.0156 * Re ^ ((0.85 : ℝ)) * Pr ^ ((0.93 : ℝ))
      if Pr < 0.1 then Nusselt_L_lp
      else Nusselt_L_lp + (Pr - 0.1) * (Nusselt_L0 - Nusselt_L_lp) / 0.4
    else Nusselt_L0
  let f : ℝ := f_fd * (1 + (1 / LD) ^ ((0.7 : ℝ)))
  (Nusselt_L, f)

/-- Embeds `pipeflow_laminar` (ht_functions.py lines 47-62).  Returns the
triple `(Nusselt_T, Nusselt_H, f)`.  The local `Gm = Gz**(1/3)` of the
source is never used and is dropped. -/
def pipeflow_laminar (Re Pr LD relrough : ℝ) : ℝ × ℝ × ℝ :=
  let Gz : ℝ := Re * Pr / LD
  let x : ℝ := LD / Re
  let fR : ℝ := 3.44 / Real.sqrt x +
    (1.25 / (4 * x) + 16 - 3.44 / Real.sqrt x) / (1 + 0.00021 * x ^ (-2 : ℤ))
  let f : ℝ := 4 * fR / Re
  let Nusselt_T : ℝ :=
    3.66 + ((0.049 + 0.02 / Pr) * Gz ^ ((1.12 : ℝ))) / (1 + 0.065 * Gz ^ ((0.7 : ℝ)))
  let Nusselt_H : ℝ :=
    4.36 + ((0.1156 + 0.08569 / Pr ^ ((0.4 : ℝ))) * Gz) / (1 + 0.1158 * Gz ^ ((0.6 : ℝ)))
  (Nusselt_T, Nusselt_H, f)

/-- Embeds `pipeflow_nd` (ht_functions.py lines 64-88).  Returns the triple
`(Nusselt_T, Nusselt_H, f)`. -/
def pipeflow_nd (Re Pr LD relrough : ℝ) : ℝ × ℝ × ℝ :=
  if Re > 3000 then
    let t := pipeflow_turbulent Re Pr LD relrough
    (t.1, t.1, t.2)
  else if Re < 2300 then
    pipeflow_laminar Re Pr LD relrough
  else
    let t := pipeflow_turbulent 3000 Pr LD relrough
    let Nusselt_T : ℝ := t.1
    let f : ℝ := t.2
    let Nusselt_H : ℝ := Nusselt_T
    let l := pipeflow_laminar 2300 Pr LD relrough
    (l.1 + (Re - 2300) / (3000 - 2300) * (Nusselt_T - l.1),
     l.2.1 + (Re - 2300) / (3000 - 2300) * (Nusselt_H - l.2.1),
     l.2.2 + (Re - 2300) / (3000 - 2300) * (f - l.2.2))

/-- Fully-developed turbulent friction factor, written compositionally for
comparison with the monolithic `pipeflow_turbulent`: the Li-Seem-Li smooth
correlation (lines 18-20), replaced by the Offor-Alabi rough correlation
when `relrough > 1e-5` (lines 22-28). -/
def turb_f_fd (Re relrough : ℝ) : ℝ :=
  if relrough > 1e-5 then
    (-2 * (Real.log (relrough / 3.71 -
        1.975 / Re * Real.log ((relrough / 3.93) ^ ((1.092 : ℝ)) +
          7.627 / (Re + 395.9))) / Real.log 10)) ^ (-2 : ℤ)
  else
    (-0.001570232 / Real.log Re + 0.394203137 / (Real.log Re) ^ 2 +
      2.534153311 / (Real.log Re) ^ 3) * 4

/-- Turbulent Nusselt number as the source computes it (Gnielinski plus the
low-Prandtl Notter-Sleicher branch, lines 31-39), written compositionally.
It takes no length-to-diameter argument: the developing-flow correction of
line 43 is computed and discarded by the source, so `LD` cannot influence
the Nusselt number. -/
def turb_Nusselt (Re Pr relrough : ℝ) : ℝ :=
  let f_fd := turb_f_fd Re relrough
  let NuG : ℝ :=
    ((f_fd / 8) * (Re - 1000) * Pr) /
      (1 + 12.7 * Real.sqrt (f_fd / 8) * (Pr ^ ((2 : ℝ) / 3) - 1))
  if Pr < 0.5 then
    let NuLp : ℝ := 4.8 + 0.0156 * Re ^ ((0.85 : ℝ)) * Pr ^ ((0.93 : ℝ))
    if Pr < 0.1 then NuLp else NuLp + (Pr - 0.1) * (NuG - NuLp) / 0.4
  else NuG

/-- Modelled from the spec: the coolant-properties record supplied by the
repository's `physical_properties` module, which is not among the source
files; §3 MaterialProperties and the uses in ht_functions.py give its
fields: mass flow rate, density, viscosity, Prandtl number, coolant
conductivity, coolant temperature, and the power-cycle pressure-drop
limit. -/
structure FlowProps where
  m_dot : ℝ
  rho : ℝ
  mu : ℝ
  Pr : ℝ
  k_cool : ℝ
  T : ℝ
  dp_limit : ℝ

/-- Modelled from the spec: the fuel-properties record looked up from the
missing `physical_properties.fuel_props` table; ht_functions.py reads the
keys `T_center`, `k_fuel` and `rho_fuel`. -/
structure FuelProps where
  T_center : ℝ
  k_fuel : ℝ
  rho_fuel : ℝ

/-- The four fuel/coolant identifiers of the `coeffs` table in
`Flow.constrain_radius` (lines 384-388). -/
inductive FuelKind
  | uo2co2
  | uo2h2o
  | uwco2
  | uwh2o
deriving DecidableEq

/-- The `coeffs` table of `Flow.constrain_radius` (lines 384-388). -/
def constrainCoeffs : FuelKind → ℝ × ℝ
  | .uo2co2 => (0.16271, -0.8515)
  | .uo2h2o => (0.1706, -0.61361)
  | .uwco2 => (0.15385, -0.8309)
  | .uwh2o => (0.16270, -0.6487)

/-- State of one `Flow` object: every attribute that ht_functions.py ever
assigns on the class or on `self` (class-level defaults, `__init__`, and the
methods), except the class-level `savedata` caption table, which is carried
separately as `savedataKeys`. -/
structure Flow where
  r_channel : ℝ := 0
  c : ℝ := 0
  pitch : ℝ := 0
  L : ℝ := 0
  Vol_fuel : ℝ := 0
  mass : ℝ := 0
  A_fuel : ℝ := 0
  A_flow : ℝ := 0
  fuel_frac : ℝ := 0.75
  core_r : ℝ := 1
  D_e : ℝ := 0
  v : ℝ := 0
  dp : ℝ := 0
  h_bar : ℝ := 0
  f : ℝ := 0
  q_bar : ℝ := 0
  q_per_channel : ℝ := 0
  iterations : ℝ := 0
  Q_therm : ℝ := 0
  fuel : FuelKind := .uo2co2
  fuelprops : FuelProps := ⟨0, 0, 0⟩
  AR : ℝ := 0
  rough : ℝ := 1.5e-6
  fps : FlowProps := ⟨0, 0, 0, 0, 0, 0, 0⟩
  dT : ℝ := 0
  LD : ℝ := 0
  vol_fuel : ℝ := 0
  vol_cool : ℝ := 0
  N_channels : ℝ := 0
  radius_cond : ℝ := 0
  XS_A_cond : ℝ := 0
  relrough : ℝ := 0
  Re : ℝ := 0
  Nu : ℝ := 0
  R_cond : ℝ := 0
  R_conv : ℝ := 0
  gen_Q : ℝ := 0

/-- Embeds `Flow.set_geom` (lines 212-234). -/
def Flow.set_geom (s : Flow) : Flow :=
  let A_flow := s.core_r ^ 2 * Real.pi * (1 - s.fuel_frac)
  let A_fuel := s.core_r ^ 2 * Real.pi * s.fuel_frac
  let L := s.AR * s.core_r
  let N_channels := A_flow / (s.r_channel ^ 2 * Real.pi)
  { s with
    A_flow := A_flow
    A_fuel := A_fuel
    L := L
    LD := L / (s.r_channel * 2)
    vol_fuel := A_fuel * L
    vol_cool := A_flow * L
    N_channels := N_channels
    radius_cond := Real.sqrt (A_fuel / N_channels) / 2
    XS_A_cond := Real.pi * s.r_channel * L * 2 * N_channels
    relrough := s.rough / (s.r_channel * 2) }

/-- Embeds `Flow.characterize_flow` (lines 236-260); the unpacking
`self.Nu, Nu_H, self.f = pipeflow_nd(...)` discards the middle component. -/
def Flow.characterize_flow (s : Flow) : Flow :=
  let D_e := 2.0 * s.r_channel
  let G_dot := s.fps.m_dot / s.A_flow
  let v := G_dot / s.fps.rho
  let Re := s.fps.rho * v * D_e / s.fps.mu
  let nd := pipeflow_nd Re s.fps.Pr s.LD s.relrough
  { s with
    D_e := D_e
    v := v
    Re := Re
    Nu := nd.1
    f := nd.2.2
    h_bar := nd.1 * s.fps.k_cool / D_e }

/-- Embeds `Flow.get_q_per_channel` (lines 262-292). -/
def Flow.get_q_per_channel (s : Flow) : Flow :=
  let R_cond := s.radius_cond / (s.fuelprops.k_fuel * s.XS_A_cond)
  let R_conv := 1 / (s.h_bar * s.r_channel * 2 * Real.pi * s.L * s.N_channels)
  let q_trip_max := s.dT / (R_cond + R_conv)
  { s with
    R_cond := R_cond
    R_conv := R_conv
    gen_Q := q_trip_max * 2 / Real.pi }

/-- Embeds `Flow.calc_dp` (lines 295-304): Darcy pressure drop. -/
def Flow.calc_dp (s : Flow) : Flow :=
  { s with dp := s.f * s.L * s.fps.rho * s.v * s.v / (2 * s.D_e) }

/-- Embeds `Flow.get_dp_constrained_Nchannels` (lines 326-343). -/
def Flow.get_dp_constrained_Nchannels (s : Flow) : ℝ :=
  let v_req := Real.sqrt (2 * s.D_e * s.fps.dp_limit / (s.f * s.L * s.fps.rho))
  ((⌈s.fps.m_dot / (s.A_flow * s.fps.rho * v_req)⌉ : ℤ) : ℝ)

/-- The while-loop of `Flow.adjust_dp` (lines 320-324), with an explicit
iteration budget: `none` means the budget ran out before the guard
`self.dp > self.fps.dp_limit` became false. -/
def Flow.adjust_dp_loop : ℕ → Flow → Option Flow
  | 0, _ => none
  | gas + 1, s =>
    if s.dp > s.fps.dp_limit then
      Flow.adjust_dp_loop gas
        (Flow.calc_dp (Flow.characterize_flow
          { s with N_channels := s.get_dp_constrained_Nchannels }))
    else some s

/-- Embeds `Flow.adjust_dp` (lines 306-324): an initial `calc_dp`, then the
correction loop. -/
def Flow.adjust_dp (gas : ℕ) (s : Flow) : Option Flow :=
  Flow.adjust_dp_loop gas s.calc_dp

/-- Embeds `Flow.constrain_radius` (lines 380-391); `math.pow` is rpow. -/
def Flow.constrain_radius (s : Flow) : Flow :=
  { s with
    core_r := (constrainCoeffs s.fuel).1 *
      s.fuel_frac ^ ((constrainCoeffs s.fuel).2) }

/-- Embeds `Flow.compute_Q_from_guess` (lines 345-364): sets the fuel
fraction to the guess, re-derives the core radius, geometry, flow
characterization and generation, and returns the squared error against the
thermal power target together with the mutated state. -/
def Flow.compute_Q_from_guess (s : Flow) (inp_guess : ℝ) : Flow × ℝ :=
  let s1 := { s with fuel_frac := inp_guess }
  let s2 := s1.constrain_radius
  let s3 := s2.set_geom
  let s4 := s3.characterize_flow
  let s5 := s4.get_q_per_channel
  (s5, (s5.gen_Q - s5.Q_therm) ^ 2)

/-- Embeds `Flow.calc_reactor_mass` (lines 366-378). -/
def Flow.calc_reactor_mass (s : Flow) : Flow :=
  { s with
    mass := s.vol_fuel * s.fuelprops.rho_fuel + s.vol_cool * s.fps.rho +
      ((s.core_r * 1.05) ^ 2 - s.core_r ^ 2) * s.L * 1700 }

/-- Record of the single `scipy.optimize.minimize_scalar` call issued by
`find_n_channels` (lines 139-140): the objective, the bounds, the method
string and the `xatol` option.  The minimizer itself is an external
library; the claims are about how it is invoked. -/
structure MinimizeScalarCall where
  objective : ℝ → ℝ
  lower : ℝ
  upper : ℝ
  method : String
  xatol : ℝ

/-- Embeds `_calc_n_channels_error` (lines 108-122); the leading underscore
of the source name is dropped. -/
def calc_n_channels_error (guess : ℝ) (flowiteration : Flow) : ℝ :=
  (flowiteration.compute_Q_from_guess guess).2

/-- Embeds `find_n_channels` (lines 125-140) as the minimize_scalar call it
issues. -/
def find_n_channels (flow : Flow) : MinimizeScalarCall :=
  { objective := fun guess => calc_n_channels_error guess flow
    lower := 0.01
    upper := 1
    method := "Bounded"
    xatol := 1e-3 }

/-- The invariant inputs of a `Flow`: everything `__init__` (lines 190-210)
stores from its arguments, which no later method overwrites. -/
def Flow.inputsEq (s t : Flow) : Prop :=
  s.Q_therm = t.Q_therm ∧ s.fuel = t.fuel ∧ s.fuelprops = t.fuelprops ∧
    s.AR = t.AR ∧ s.c = t.c ∧ s.r_channel = t.r_channel ∧ s.rough = t.rough ∧
    s.fps = t.fps ∧ s.dT = t.dT

/-- Attribute names assigned on `Flow` anywhere in ht_functions.py: the
class-level defaults (lines 149-188) and every `self.<name> = ...` in
`__init__` and the methods.  `pd_ratio`, which
`ParametricSweep.save_iteration` reads on line 444, is not among them. -/
def flowAssignedAttrs : List String :=
  ["savedata", "r_channel", "c", "pitch", "L", "Vol_fuel", "mass", "A_fuel",
   "A_flow", "fuel_frac", "core_r", "D_e", "v", "dp", "h_bar", "f", "q_bar",
   "q_per_channel", "iterations", "Q_therm", "fuel", "fuelprops", "AR",
   "rough", "fps", "dT", "LD", "vol_fuel", "vol_cool", "N_channels",
   "radius_cond", "XS_A_cond", "relrough", "Re", "Nu", "R_cond", "R_conv",
   "gen_Q"]

/-- Python attribute lookup on a `Flow` instance, covering the numeric
attribute names `save_iteration` reads; a name the class never assigns
(see `flowAssignedAttrs`) raises AttributeError. -/
def Flow.getattr (s : Flow) (name : String) : Except String ℝ :=
  match name with
  | "r_channel" => .ok s.r_channel
  | "mass" => .ok s.mass
  | "N_channels" => .ok s.N_channels
  | "dp" => .ok s.dp
  | "h_bar" => .ok s.h_bar
  | "q_per_channel" => .ok s.q_per_channel
  | "q_bar" => .ok s.q_bar
  | "v" => .ok s.v
  | "AR" => .ok s.AR
  | n => .error ("AttributeError: " ++ n)

/-- Keys of the `Flow.savedata` caption table (lines 149-157), in source
order; `save_iteration` iterates over them. -/
def savedataKeys : List String :=
  ["mass", "N_channels", "dp", "h_bar", "q_per_channel", "q_bar", "v", "AR"]

/-- One row of the numpy structured result array: the eight savedata fields
plus the `r` and `pd` coordinates, zero-initialised. -/
structure Row where
  mass : ℝ := 0
  N_channels : ℝ := 0
  dp : ℝ := 0
  h_bar : ℝ := 0
  q_per_channel : ℝ := 0
  q_bar : ℝ := 0
  v : ℝ := 0
  AR : ℝ := 0
  r : ℝ := 0
  pd : ℝ := 0

/-- Write one named field of a row (`self.data[idx][key] = ...`). -/
def Row.setField (row : Row) (key : String) (x : ℝ) : Row :=
  match key with
  | "mass" => { row with mass := x }
  | "N_channels" => { row with N_channels := x }
  | "dp" => { row with dp := x }
  | "h_bar" => { row with h_bar := x }
  | "q_per_channel" => { row with q_per_channel := x }
  | "q_bar" => { row with q_bar := x }
  | "v" => { row with v := x }
  | "AR" => { row with AR := x }
  | _ => row

/-- The `ParametricSweep` state: resolution `N` and the structured result
table `data`. -/
structure Sweep where
  N : ℕ
  data : List Row

/-- Embeds `ParametricSweep.__init__` (lines 399-413): `np.zeros(N*N, ...)`
allocates N*N zeroed rows. -/
def Sweep.init (N : ℕ) : Sweep :=
  { N := N, data := List.replicate (N * N) {} }

/-- In-place update of row `idx` of the table. -/
def Sweep.setRow (sw : Sweep) (idx : ℕ) (g : Row → Row) : Sweep :=
  { sw with data := sw.data.set idx (g (sw.data.getD idx {})) }

/-- The 2-D to 1-D index of `save_iteration`, line 441: `idx = i + j*self.N`. -/
def save_idx (N i j : ℕ) : ℕ := i + j * N

/-- Row-major 2-D to 1-D mapping as the spec words it (named from the spec,
for comparison with the source's `save_idx`). -/
def row_major_idx (N i j : ℕ) : ℕ := i * N + j

/-- Embeds `ParametricSweep.save_iteration` (lines 437-446): store `r` from
`iteration.r_channel`, then `pd` from `iteration.pd_ratio`, then each
savedata key.  The key loop reads `iteration.__dict__[key]`; it is modelled
with the same attribute lookup, which is only reached if the `pd_ratio`
lookup succeeded. -/
def save_iteration (iteration : Flow) (i j : ℕ) (sw : Sweep) :
    Except String Sweep := do
  let idx := save_idx sw.N i j
  let sw1 := sw.setRow idx (fun row => { row with r := iteration.r_channel })
  let pdv ← iteration.getattr "pd_ratio"
  let sw2 := sw1.setRow idx (fun row => { row with pd := pdv })
  savedataKeys.foldlM (fun acc key => do
    let x ← iteration.getattr key
    pure (acc.setRow idx (fun row => row.setField key x))) sw2

/-- Embeds `numpy.arange(start, stop, step)` in exact real arithmetic: the
values `start + k*step` for `0 ≤ k < ⌈(stop - start)/step⌉`. -/
def np_arange (start stop step : ℝ) : List ℝ :=
  (List.range (⌈(stop - start) / step⌉).toNat).map
    (fun k : ℕ => start + (k : ℝ) * step)

/-- Embeds `numpy.meshgrid` default indexing, first output:
`R_mesh[i, j] = R_array[j]`. -/
def mesh_x (xs : List ℝ) (_i j : ℕ) : ℝ := xs.getD j 0

/-- Embeds `numpy.meshgrid` default indexing, second output:
`PD_mesh[i, j] = PD_array[i]`. -/
def mesh_y (ys : List ℝ) (i _j : ℕ) : ℝ := ys.getD i 0

/-- Embeds `ParametricSweep.sweep_geometric_configs` (lines 415-434).  The
per-cell solve (`Flow(...)` construction followed by `oned_flow_modeling`,
whose inner scipy minimizer is an external library) is abstracted as
`pipeline`: whatever Flow state the solve produces at mesh point (R, PD),
the loop calls `save_iteration` on it; theorems quantify over `pipeline`,
covering every possible solve outcome. -/
def sweep_geometric_configs (pipeline : ℝ → ℝ → Flow)
    (radii pds : ℝ × ℝ) (sw : Sweep) : Except String Sweep :=
  let R_step := (radii.2 - radii.1) / (sw.N : ℝ)
  let PD_step := (pds.2 - pds.1) / (sw.N : ℝ)
  let R_array := np_arange radii.1 radii.2 R_step
  let PD_array := np_arange pds.1 pds.2 PD_step
  (List.range sw.N).foldlM
    (fun acc i =>
      (List.range sw.N).foldlM
        (fun acc2 j =>
          save_iteration
            (pipeline (mesh_x R_array i j) (mesh_y PD_array i j)) i j acc2)
        acc)
    sw

/-- Python `min()` over a list of reals: `none` on the empty list. -/
def pyListMin : List ℝ → Option ℝ
  | [] => none
  | x :: xs => some (match pyListMin xs with | none => x | some m => min x m)

/-- Python `list.index(x)`: position of the first occurrence. -/
def pyIndex (x : ℝ) : List ℝ → Option ℕ
  | [] => none
  | y :: ys => if y = x then some 0 else (pyIndex x ys).map (· + 1)

/-- Embeds `ParametricSweep.get_min_mass` (lines 448-459):
`list(self.data['mass']).index(min(self.data['mass']))`. -/
def get_min_mass (sw : Sweep) : Option ℕ := do
  let masses := sw.data.map Row.mass
  let m ← pyListMin masses
  pyIndex m masses

/-- Top-level names defined by ht_functions.py. -/
def htFunctionsExports : List String :=
  ["pipeflow_turbulent", "pipeflow_laminar", "pipeflow_nd",
   "oned_flow_modeling", "_calc_n_channels_error", "find_n_channels",
   "Flow", "ParametricSweep"]

/-- Names that thermal_mass_opt.py line 15 imports from ht_functions. -/
def thermalMassOptImports : List String :=
  ["Flow", "ParametricSweep", "flow_calc"]

/-- Python from-import: fails with ImportError at the first requested name
the exporting module does not define. -/
def importNames (exports requested : List String) : Except String Unit :=
  match requested.find? (fun n => !(exports.contains n)) with
  | some n => .error ("ImportError: cannot import name " ++ n)
  | none => .ok ()

/-- Command-line arguments of thermal_mass_opt.py (lines 73-86). -/
structure CLIArgs where
  d_lower : ℝ
  d_upper : ℝ
  pd_lower : ℝ
  pd_upper : ℝ
  z : ℝ
  clad_t : ℝ
  steps : ℕ
  plotkey : String
  AR_select : Bool

/-- Outcome of running the thermal_mass_opt.py script. -/
inductive MainOutcome
  | importError (msg : String)
  | configExit (printed : String) (exitCode : ℕ)
  | sweepRun
deriving DecidableEq

/-- Embeds the `__main__` body of thermal_mass_opt.py lines 86-96 on its
own, assuming the module imports had succeeded: the `pd_lower <= 1` guard
prints the error text (the source concatenation yields "channeldiameter",
with no space) and calls bare `sys.exit()`, which terminates Python with
exit status 0; otherwise `sweep_configs` runs. -/
def thermal_mass_opt_body (args : CLIArgs) : MainOutcome :=
  if args.pd_lower ≤ 1 then
    .configExit ("Error: Min fuel pitch must be greater than max coolant " ++
      "channeldiameter! Set min PD > 1!") 0
  else .sweepRun

/-- Embeds running thermal_mass_opt.py as a script: the module-level import
on line 15 executes before argparse, and an ImportError aborts the run. -/
def thermal_mass_opt_main (args : CLIArgs) : MainOutcome :=
  match importNames htFunctionsExports thermalMassOptImports with
  | .error m => .importError m
  | .ok _ => thermal_mass_opt_body args

/-- Derived pressure drop: the value `calc_dp` computes right after
`characterize_flow` has refreshed the flow fields.  Iterations of the
`adjust_dp` loop cannot change it, because `characterize_flow` reads only
geometry and coolant properties, never `N_channels`. -/
def Flow.recomputed_dp (s : Flow) : ℝ :=
  (Flow.calc_dp (Flow.characterize_flow s)).dp

/-- Concrete state for exercising `adjust_dp` termination: zero stored
velocity, so the initial pressure drop is zero, below the limit 1. -/
def flowC1 : Flow :=
  { fps := { m_dot := 0, rho := 0, mu := 0, Pr := 0, k_cool := 0, T := 0,
             dp_limit := 1 } }

/-- Concrete state violating the pressure-drop limit: stored and
recomputed pressure drops are both far above the limit 1 (laminar regime,
Re = 1000, all correlation inputs chosen so the friction factor is a
rational number). -/
def flowC2 : Flow :=
  { r_channel := 0.5
    L := 1000
    D_e := 1
    A_flow := 1
    LD := 1000
    relrough := 0
    v := 1000
    f := 0.01
    dp := 0
    fps := { m_dot := 1000, rho := 1, mu := 1, Pr := 1, k_cool := 1, T := 0,
             dp_limit := 1 } }

/-- Inputs bundle of a `Flow`: the fields `__init__` stores. -/
def Flow.coreInputs (s : Flow) :
    ℝ × FuelKind × FuelProps × ℝ × ℝ × ℝ × ℝ × FlowProps × ℝ :=
  (s.Q_therm, s.fuel, s.fuelprops, s.AR, s.c, s.r_channel, s.rough, s.fps, s.dT)

/-- Rebuild a `Flow` carrying only the constructor inputs, every derived
field left at its class default. -/
def flowOfInputs :
    ℝ × FuelKind × FuelProps × ℝ × ℝ × ℝ × ℝ × FlowProps × ℝ → Flow :=
  fun (q, fu, fp, ar, cc, r, ro, ps, dt) =>
    { Q_therm := q, fuel := fu, fuelprops := fp, AR := ar, c := cc,
      r_channel := r, rough := ro, fps := ps, dT := dt }

/-- Concrete solved-looking state A for the re-derivation property. -/
def flowA : Flow :=
  { Q_therm := 200000
    fuel := .uo2co2
    fuelprops := ⟨1847.5, 21, 10970⟩
    AR := 1
    c := 0.031
    r_channel := 0.005
    rough := 1.5e-6
    fps := ⟨1, 87.13, 1e-5, 0.75, 0.07, 1000, 480000⟩
    dT := 847.5
    mass := 42
    core_r := 3
    dp := 123 }

/-- Concrete state B: same constructor inputs as `flowA`, different mutable
scratch state. -/
def flowB : Flow :=
  { Q_therm := 200000
    fuel := .uo2co2
    fuelprops := ⟨1847.5, 21, 10970⟩
    AR := 1
    c := 0.031
    r_channel := 0.005
    rough := 1.5e-6
    fps := ⟨1, 87.13, 1e-5, 0.75, 0.07, 1000, 480000⟩
    dT := 847.5
    mass := 0
    core_r := 7
    dp := 0
    A_flow := 5
    N_channels := 17 }

/-- Concrete four-row result table with a duplicated minimum mass. -/
def sweepC7 : Sweep :=
  { N := 2
    data := [{ mass := 5 }, { mass := 3 }, { mass := 3 }, { mass := 7 }] }

/-- The Offor-Alabi fully-developed friction factor at relative roughness
3.93, after the simplification (3.93/3.93)^1.092 = 1: the value
`pipeflow_turbulent` computes for `relrough = 3.93`. -/
def C9f (Re : ℝ) : ℝ :=
  (-2 * (Real.log (3.93 / 3.71 -
      1.975 / Re * Real.log (1 + 7.627 / (Re + 395.9))) / Real.log 10)) ^ (-2 : ℤ)

end

/-- C6: in `pipeflow_turbulent` the returned friction factor is the
fully-developed factor scaled by `(1 + (1/LD)^0.7)`, while the returned
Nusselt number carries no developing-flow correction at all: it is
independent of `LD`. -/
theorem C6_turbulent_developing_flow (Re Pr LD LD' relrough : ℝ) :
    (pipeflow_turbulent Re Pr LD relrough).2 =
      turb_f_fd Re relrough * (1 + (1 / LD) ^ ((0.7 : ℝ))) ∧
    (pipeflow_turbulent Re Pr LD relrough).1 = turb_Nusselt Re Pr relrough ∧
    (pipeflow_turbulent Re Pr LD relrough).1 =
      (pipeflow_turbulent Re Pr LD' relrough).1 := by
  refine ⟨?_, ?_, ?_⟩ <;>
    simp only [pipeflow_turbulent, turb_f_fd, turb_Nusselt]

/-- C5: for `2300 ≤ Re ≤ 3000`, `pipeflow_nd` returns, componentwise, the
linear interpolation in `Re` between the laminar correlation at `Re = 2300`
and the turbulent correlation at `Re = 3000` (whose single Nusselt number
serves as turbulent endpoint for both Nusselt components); at the laminar
boundary `Re = 2300` the blend equals the laminar values exactly. -/
theorem C5_transition_blend (Re Pr LD relrough : ℝ)
    (h1 : 2300 ≤ Re) (h2 : Re ≤ 3000) :
    pipeflow_nd Re Pr LD relrough =
      ((pipeflow_laminar 2300 Pr LD relrough).1 + (Re - 2300) / (3000 - 2300) *
         ((pipeflow_turbulent 3000 Pr LD relrough).1 -
           (pipeflow_laminar 2300 Pr LD relrough).1),
       (pipeflow_laminar 2300 Pr LD relrough).2.1 + (Re - 2300) / (3000 - 2300) *
         ((pipeflow_turbulent 3000 Pr LD relrough).1 -
           (pipeflow_laminar 2300 Pr LD relrough).2.1),
       (pipeflow_laminar 2300 Pr LD relrough).2.2 + (Re - 2300) / (3000 - 2300) *
         ((pipeflow_turbulent 3000 Pr LD relrough).2 -
           (pipeflow_laminar 2300 Pr LD relrough).2.2)) ∧
    pipeflow_nd 2300 Pr LD relrough = pipeflow_laminar 2300 Pr LD relrough := by
  constructor
  · rw [pipeflow_nd, if_neg (by linarith), if_neg (by linarith)]
  · rw [pipeflow_nd, if_neg (by norm_num), if_neg (by norm_num)]
    have : ((2300 : ℝ) - 2300) / (3000 - 2300) = 0 := by norm_num
    simp only [this, zero_mul, add_zero]

/-- Witness for C5 at `Re = 2500`, `Pr = 1`, `LD = 1`, `relrough = 0`. -/
theorem C5_transition_blend_witness :
    (2300 : ℝ) ≤ 2500 ∧ (2500 : ℝ) ≤ 3000 ∧
    pipeflow_nd 2500 1 1 0 =
      ((pipeflow_laminar 2300 1 1 0).1 + (2500 - 2300) / (3000 - 2300) *
         ((pipeflow_turbulent 3000 1 1 0).1 - (pipeflow_laminar 2300 1 1 0).1),
       (pipeflow_laminar 2300 1 1 0).2.1 + (2500 - 2300) / (3000 - 2300) *
         ((pipeflow_turbulent 3000 1 1 0).1 - (pipeflow_laminar 2300 1 1 0).2.1),
       (pipeflow_laminar 2300 1 1 0).2.2 + (2500 - 2300) / (3000 - 2300) *
         ((pipeflow_turbulent 3000 1 1 0).2 - (pipeflow_laminar 2300 1 1 0).2.2)) :=
  ⟨by norm_num, by norm_num,
    (C5_transition_blend 2500 1 1 0 (by norm_num) (by norm_num)).1⟩

theorem save_iteration_pd_error (flow : Flow) (i j : ℕ) (sw : Sweep) :
    save_iteration flow i j sw = .error "AttributeError: pd_ratio" := rfl

theorem foldlM_const_error {α β : Type} (f : β → α → Except String β)
    (e : String) (hf : ∀ b a, f b a = .error e) :
    ∀ (l : List α) (b : β), l ≠ [] → l.foldlM f b = .error e
  | [], _, h => absurd rfl h
  | a :: l, b, _ => by rw [List.foldlM_cons, hf]; rfl

/-- C10: the `pd_ratio` attribute read by `save_iteration` is never
assigned by any `Flow` method or constructor, so `save_iteration` fails
with AttributeError on every `Flow` whatsoever — in particular on every
state the solve pipeline can produce — and no sweep at resolution `N ≥ 1`
returns a populated result table: whatever per-cell solve `pipeline` is,
the sweep aborts with the AttributeError. -/
theorem C10_save_iteration_pd_ratio :
    "pd_ratio" ∉ flowAssignedAttrs ∧
    (∀ (flow : Flow) (i j : ℕ) (sw : Sweep),
      save_iteration flow i j sw = .error "AttributeError: pd_ratio") ∧
    (∀ (pipeline : ℝ → ℝ → Flow) (radii pds : ℝ × ℝ) (N : ℕ), 1 ≤ N →
      sweep_geometric_configs pipeline radii pds (Sweep.init N) =
        .error "AttributeError: pd_ratio") := by
  refine ⟨by decide, fun flow i j sw => save_iteration_pd_error flow i j sw,
    fun pipeline radii pds N hN => ?_⟩
  have hne : List.range (Sweep.init N).N ≠ [] := by
    show List.range N ≠ []
    intro hcon
    rw [List.range_eq_nil] at hcon
    omega
  unfold sweep_geometric_configs
  refine foldlM_const_error _ _ (fun b a => ?_) _ _ hne
  refine foldlM_const_error _ _ (fun b' a' => ?_) _ _ hne
  exact save_iteration_pd_error _ _ _ _

/-- Witness for C10 at resolution 1 with a trivial per-cell solve. -/
theorem C10_save_iteration_pd_ratio_witness :
    1 ≤ 1 ∧
    sweep_geometric_configs (fun _ _ => {}) (0.005, 0.01) (1.1, 1.5)
      (Sweep.init 1) = .error "AttributeError: pd_ratio" :=
  ⟨le_refl 1, C10_save_iteration_pd_ratio.2.2 (fun _ _ => {})
    (0.005, 0.01) (1.1, 1.5) 1 (le_refl 1)⟩

theorem pyListMin_spec :
    ∀ (xs : List ℝ) (m : ℝ), pyListMin xs = some m →
      m ∈ xs ∧ ∀ y ∈ xs, m ≤ y := by
  intro xs
  induction xs with
  | nil => intro m h; simp [pyListMin] at h
  | cons x xs ih =>
    intro m h
    rw [pyListMin] at h
    cases hxs : pyListMin xs with
    | none =>
      rw [hxs] at h
      cases xs with
      | nil =>
        simp at h
        subst h
        exact ⟨List.mem_singleton.2 rfl, by simp⟩
      | cons y ys => simp [pyListMin] at hxs
    | some m' =>
      rw [hxs] at h
      simp only [Option.some.injEq] at h
      obtain ⟨hm', hle⟩ := ih m' hxs
      subst h
      constructor
      · rcases le_total x m' with hx | hx
        · simp [min_eq_left hx]
        · right
          rwa [min_eq_right hx]
      · intro y hy
        rcases List.mem_cons.1 hy with hy | hy
        · subst hy; exact min_le_left _ _
        · exact le_trans (min_le_right _ _) (hle y hy)

theorem pyListMin_isSome (x : ℝ) (xs : List ℝ) :
    ∃ m, pyListMin (x :: xs) = some m := by
  rw [pyListMin]
  cases pyListMin xs <;> exact ⟨_, rfl⟩

theorem pyIndex_spec :
    ∀ (xs : List ℝ) (x : ℝ) (i : ℕ), pyIndex x xs = some i →
      i < xs.length ∧ xs.getD i 0 = x ∧ ∀ k, k < i → xs.getD k 0 ≠ x := by
  intro xs
  induction xs with
  | nil => intro x i h; simp [pyIndex] at h
  | cons y ys ih =>
    intro x i h
    rw [pyIndex] at h
    by_cases hyx : y = x
    · rw [if_pos hyx] at h
      simp only [Option.some.injEq] at h
      subst h
      exact ⟨by simp, by simpa using hyx, by omega⟩
    · rw [if_neg hyx] at h
      cases hrec : pyIndex x ys with
      | none => rw [hrec] at h; simp at h
      | some i' =>
        rw [hrec] at h
        simp only [Option.map_some', Option.some.injEq] at h
        subst h
        obtain ⟨h1, h2, h3⟩ := ih x i' hrec
        refine ⟨by simpa using h1, by simpa using h2, ?_⟩
        intro k hk
        cases k with
        | zero => simpa using hyx
        | succ k' =>
          simp only [List.getD_cons_succ]
          exact h3 k' (by omega)

theorem pyIndex_of_mem :
    ∀ (xs : List ℝ) (x : ℝ), x ∈ xs → ∃ i, pyIndex x xs = some i := by
  intro xs
  induction xs with
  | nil => intro x h; simp at h
  | cons y ys ih =>
    intro x h
    rw [pyIndex]
    by_cases hyx : y = x
    · exact ⟨0, by rw [if_pos hyx]⟩
    · rcases List.mem_cons.1 h with h' | h'
      · exact absurd h'.symm hyx
      · obtain ⟨i, hi⟩ := ih x h'
        exact ⟨i + 1, by rw [if_neg hyx, hi]; rfl⟩

/-- C7: `get_min_mass` returns the index of a row whose mass is a minimum
over the whole table, and among equal minima the first in table order. -/
theorem C7_get_min_mass_first_min (sw : Sweep) (h : sw.data ≠ []) :
    ∃ i, get_min_mass sw = some i ∧ i < sw.data.length ∧
      (∀ j, j < sw.data.length →
        (sw.data.getD i {}).mass ≤ (sw.data.getD j {}).mass) ∧
      (∀ k, k < i → (sw.data.getD k {}).mass ≠ (sw.data.getD i {}).mass) := by
  obtain ⟨y, ys, hys⟩ := List.exists_cons_of_ne_nil h
  have hmasses : sw.data.map Row.mass = Row.mass y :: ys.map Row.mass := by
    rw [hys]; rfl
  obtain ⟨m, hm⟩ := pyListMin_isSome (Row.mass y) (ys.map Row.mass)
  have hm' : pyListMin (sw.data.map Row.mass) = some m := by rw [hmasses]; exact hm
  obtain ⟨hmem, hle⟩ := pyListMin_spec _ _ hm'
  obtain ⟨i, hi⟩ := pyIndex_of_mem _ _ hmem
  obtain ⟨hilen, hival, hifirst⟩ := pyIndex_spec _ _ _ hi
  have hlen : (sw.data.map Row.mass).length = sw.data.length := by simp
  have hgetD : ∀ k, k < sw.data.length →
      (sw.data.map Row.mass).getD k 0 = (sw.data.getD k {}).mass := by
    intro k hk
    simp [List.getD_eq_getElem?_getD, List.getElem?_map,
      List.getElem?_eq_getElem hk]
  refine ⟨i, ?_, ?_, ?_, ?_⟩
  · have hdef : get_min_mass sw = (pyListMin (sw.data.map Row.mass)).bind
        (fun m => pyIndex m (sw.data.map Row.mass)) := rfl
    rw [hdef, hm']
    exact hi
  · omega
  · intro j hj
    rw [← hgetD i (by omega), ← hgetD j hj, hival]
    exact hle _ (by
      have : (sw.data.map Row.mass).getD j 0 ∈ sw.data.map Row.mass := by
        rw [List.getD_eq_getElem?_getD, List.getElem?_eq_getElem (by simpa using hj)]
        exact List.getElem_mem _
      simpa using this)
  · intro k hk
    rw [← hgetD k (by omega), ← hgetD i (by omega), hival]
    exact hifirst k hk

/-- Witness for C7 on a four-row table whose minimum mass 3 appears first
at index 1. -/
theorem C7_get_min_mass_first_min_witness :
    sweepC7.data ≠ [] ∧
    ∃ i, get_min_mass sweepC7 = some i ∧ i < sweepC7.data.length ∧
      (∀ j, j < sweepC7.data.length →
        (sweepC7.data.getD i {}).mass ≤ (sweepC7.data.getD j {}).mass) ∧
      (∀ k, k < i → (sweepC7.data.getD k {}).mass ≠ (sweepC7.data.getD i {}).mass) :=
  ⟨by simp [sweepC7], C7_get_min_mass_first_min sweepC7 (by simp [sweepC7])⟩

theorem np_arange_length (start stop : ℝ) (N : ℕ) (hN : 1 ≤ N)
    (h : start < stop) :
    (np_arange start stop ((stop - start) / (N : ℝ))).length = N := by
  unfold np_arange
  rw [List.length_map, List.length_range]
  have hs : stop - start ≠ 0 := sub_ne_zero.2 (ne_of_gt h)
  have hNr : (N : ℝ) ≠ 0 := by
    have : 0 < N := hN
    positivity
  have hstep : (stop - start) / ((stop - start) / (N : ℝ)) = (N : ℝ) := by
    field_simp
  rw [hstep, Int.ceil_natCast, Int.toNat_natCast]

theorem np_arange_getD (start stop step : ℝ) (k : ℕ)
    (hk : k < (np_arange start stop step).length) :
    (np_arange start stop step).getD k 0 = start + k * step := by
  unfold np_arange at hk ⊢
  rw [List.length_map, List.length_range] at hk
  rw [List.getD_eq_getElem?_getD, List.getElem?_map, List.getElem?_range hk]
  rfl

theorem save_idx_lt (N i j : ℕ) (hi : i < N) (hj : j < N) :
    save_idx N i j < N * N := by
  unfold save_idx
  calc i + j * N < N + j * N := by omega
  _ = (j + 1) * N := by ring
  _ ≤ N * N := Nat.mul_le_mul (by omega) (le_refl N)

theorem save_idx_inj (N i j i' j' : ℕ) (hi : i < N) (hi' : i' < N)
    (h : save_idx N i j = save_idx N i' j') : i = i' ∧ j = j' := by
  unfold save_idx at h
  have hmod : i % N = i' % N := by
    rw [← Nat.add_mul_mod_self_right i j N, h, Nat.add_mul_mod_self_right]
  have hii : i = i' := by
    rwa [Nat.mod_eq_of_lt hi, Nat.mod_eq_of_lt hi'] at hmod
  subst hii
  have hjj : j * N = j' * N := by omega
  exact ⟨rfl, Nat.eq_of_mul_eq_mul_right (by omega) hjj⟩

theorem save_idx_surj (N k : ℕ) (hk : k < N * N) :
    ∃ i j, i < N ∧ j < N ∧ save_idx N i j = k := by
  have hN : 0 < N := by
    rcases Nat.eq_zero_or_pos N with h0 | h0
    · subst h0; omega
    · exact h0
  refine ⟨k % N, k / N, Nat.mod_lt _ hN, ?_, ?_⟩
  · exact Nat.div_lt_of_lt_mul (by rwa [Nat.mul_comm] at hk)
  · unfold save_idx
    rw [Nat.mul_comm (k / N) N]
    exact Nat.mod_add_div k N

/-- C4 counterexample: at resolution N = 2 the source maps grid cell
(i, j) = (0, 1) to row 2, whereas the row-major mapping gives row 1, so the
source's 2-D-to-1-D mapping is not row-major in (i, j). -/
theorem C4_row_major_counterexample :
    save_idx 2 0 1 = 2 ∧ row_major_idx 2 0 1 = 1 ∧
      save_idx 2 0 1 ≠ row_major_idx 2 0 1 := by decide

/-- C4 (amended): for a sweep at resolution N ≥ 1 over nondegenerate
ranges, the result table is allocated with exactly N*N rows; the source's
index mapping (i, j) ↦ i + j*N is a bijection between the N×N grid cells
and the row indices below N*N, so the N² save_iteration calls target each
row exactly once; both parameter arrays have exactly N entries; and
distinct grid cells carry distinct (radius, pitch-ratio) mesh coordinates. -/
theorem C4_sweep_table (N : ℕ) (hN : 1 ≤ N) (r0 r1 p0 p1 : ℝ)
    (hr : r0 < r1) (hp : p0 < p1) :
    (Sweep.init N).data.length = N * N ∧
    (∀ i j, i < N → j < N → save_idx N i j < N * N) ∧
    (∀ i j i' j', i < N → i' < N →
      save_idx N i j = save_idx N i' j' → i = i' ∧ j = j') ∧
    (∀ k, k < N * N → ∃ i j, i < N ∧ j < N ∧ save_idx N i j = k) ∧
    (np_arange r0 r1 ((r1 - r0) / (N : ℝ))).length = N ∧
    (np_arange p0 p1 ((p1 - p0) / (N : ℝ))).length = N ∧
    (∀ i j i' j', i < N → j < N → i' < N → j' < N →
      mesh_x (np_arange r0 r1 ((r1 - r0) / (N : ℝ))) i j =
        mesh_x (np_arange r0 r1 ((r1 - r0) / (N : ℝ))) i' j' →
      mesh_y (np_arange p0 p1 ((p1 - p0) / (N : ℝ))) i j =
        mesh_y (np_arange p0 p1 ((p1 - p0) / (N : ℝ))) i' j' →
      i = i' ∧ j = j') := by
  have hrlen := np_arange_length r0 r1 N hN hr
  have hplen := np_arange_length p0 p1 N hN hp
  refine ⟨by simp [Sweep.init], save_idx_lt N, fun i j i' j' hi hi' =>
    save_idx_inj N i j i' j' hi hi', save_idx_surj N, hrlen, hplen, ?_⟩
  intro i j i' j' hi hj hi' hj' hx hy
  have hrstep : (0 : ℝ) < (r1 - r0) / (N : ℝ) := by
    apply div_pos (by linarith)
    exact_mod_cast Nat.lt_of_lt_of_le Nat.zero_lt_one hN
  have hpstep : (0 : ℝ) < (p1 - p0) / (N : ℝ) := by
    apply div_pos (by linarith)
    exact_mod_cast Nat.lt_of_lt_of_le Nat.zero_lt_one hN
  unfold mesh_x at hx
  unfold mesh_y at hy
  rw [np_arange_getD r0 r1 _ j (by omega), np_arange_getD r0 r1 _ j' (by omega)]
    at hx
  rw [np_arange_getD p0 p1 _ i (by omega), np_arange_getD p0 p1 _ i' (by omega)]
    at hy
  have hj : (j : ℝ) = (j' : ℝ) := by
    have := mul_right_cancel₀ (ne_of_gt hrstep) (by linarith : (j : ℝ) *
      ((r1 - r0) / (N : ℝ)) = (j' : ℝ) * ((r1 - r0) / (N : ℝ)))
    exact this
  have hi : (i : ℝ) = (i' : ℝ) := by
    have := mul_right_cancel₀ (ne_of_gt hpstep) (by linarith : (i : ℝ) *
      ((p1 - p0) / (N : ℝ)) = (i' : ℝ) * ((p1 - p0) / (N : ℝ)))
    exact this
  exact ⟨Nat.cast_injective hi, Nat.cast_injective hj⟩

/-- Witness for C4 (amended) at N = 2 over ranges (0.005, 0.01) and
(1.1, 1.5). -/
theorem C4_sweep_table_witness :
    1 ≤ 2 ∧ (0.005 : ℝ) < 0.01 ∧ (1.1 : ℝ) < 1.5 ∧
    ((Sweep.init 2).data.length = 2 * 2 ∧
    (∀ i j, i < 2 → j < 2 → save_idx 2 i j < 2 * 2) ∧
    (∀ i j i' j', i < 2 → i' < 2 →
      save_idx 2 i j = save_idx 2 i' j' → i = i' ∧ j = j') ∧
    (∀ k, k < 2 * 2 → ∃ i j, i < 2 ∧ j < 2 ∧ save_idx 2 i j = k) ∧
    (np_arange 0.005 0.01 ((0.01 - 0.005) / ((2 : ℕ) : ℝ))).length = 2 ∧
    (np_arange 1.1 1.5 ((1.5 - 1.1) / ((2 : ℕ) : ℝ))).length = 2 ∧
    (∀ i j i' j', i < 2 → j < 2 → i' < 2 → j' < 2 →
      mesh_x (np_arange 0.005 0.01 ((0.01 - 0.005) / ((2 : ℕ) : ℝ))) i j =
        mesh_x (np_arange 0.005 0.01 ((0.01 - 0.005) / ((2 : ℕ) : ℝ))) i' j' →
      mesh_y (np_arange 1.1 1.5 ((1.5 - 1.1) / ((2 : ℕ) : ℝ))) i j =
        mesh_y (np_arange 1.1 1.5 ((1.5 - 1.1) / ((2 : ℕ) : ℝ))) i' j' →
      i = i' ∧ j = j')) :=
  ⟨by norm_num, by norm_num, by norm_num,
    C4_sweep_table 2 (by norm_num) 0.005 0.01 1.1 1.5 (by norm_num) (by norm_num)⟩

/-- C8: the program cannot reach its configuration validation at all: the
module-level import of `flow_calc` from ht_functions fails on every
invocation, aborting with ImportError before argparse runs, so no sweep
ever proceeds; moreover the validation branch itself (modelled on its own
as `thermal_mass_opt_body`) prints the error message but calls bare
`sys.exit()`, which exits with status 0, not non-zero. -/
theorem C8_cli_validation :
    (∀ args : CLIArgs, thermal_mass_opt_main args =
      .importError "ImportError: cannot import name flow_calc") ∧
    (∀ args : CLIArgs, args.pd_lower ≤ 1 →
      thermal_mass_opt_body args =
        .configExit ("Error: Min fuel pitch must be greater than max coolant " ++
          "channeldiameter! Set min PD > 1!") 0) ∧
    (∀ args : CLIArgs, 1 < args.pd_lower →
      thermal_mass_opt_body args = .sweepRun) := by
  refine ⟨fun args => rfl, fun args h => ?_, fun args h => ?_⟩
  · rw [thermal_mass_opt_body, if_pos h]
  · rw [thermal_mass_opt_body, if_neg (not_le.2 h)]

/-- Witness for C8 at pd_lower = 1 (guard taken, exit status 0) and
pd_lower = 1.5 (guard not taken). -/
theorem C8_cli_validation_witness :
    ((1 : ℝ) ≤ 1 ∧ thermal_mass_opt_body
        ⟨0.01, 0.02, 1, 1.5, 2, 0.001, 5, "mass", false⟩ =
      .configExit ("Error: Min fuel pitch must be greater than max coolant " ++
        "channeldiameter! Set min PD > 1!") 0) ∧
    ((1 : ℝ) < 1.5 ∧ thermal_mass_opt_body
        ⟨0.01, 0.02, 1.5, 1.5, 2, 0.001, 5, "mass", false⟩ = .sweepRun) :=
  ⟨⟨le_refl 1, C8_cli_validation.2.1 _ (le_refl 1)⟩,
   ⟨by norm_num, C8_cli_validation.2.2 _ (by norm_num)⟩⟩

theorem adjust_dp_loop_post :
    ∀ (gas : ℕ) (t s' : Flow), Flow.adjust_dp_loop gas t = some s' →
      s'.dp ≤ s'.fps.dp_limit ∧ s'.fps = t.fps
  | 0, t, s', h => by simp [Flow.adjust_dp_loop] at h
  | gas + 1, t, s', h => by
    rw [Flow.adjust_dp_loop] at h
    by_cases hg : t.dp > t.fps.dp_limit
    · rw [if_pos hg] at h
      obtain ⟨h1, h2⟩ := adjust_dp_loop_post gas _ s' h
      exact ⟨h1, h2.trans rfl⟩
    · rw [if_neg hg] at h
      simp only [Option.some.injEq] at h
      subst h
      exact ⟨le_of_not_lt hg, rfl⟩

/-- C1: whenever `adjust_dp` terminates, the final pressure drop is at most
the configured limit; and while the drop exceeds the limit, each loop pass
sets `N_channels` to the closed-form minimum integer channel count
ceil(m_dot / (A_flow * rho * v_req)) with
v_req = sqrt(2 * D_e * dp_limit / (f * L * rho)), re-runs
`characterize_flow` and recomputes the pressure drop. -/
theorem C1_adjust_dp_postcondition (gas : ℕ) (s s' : Flow)
    (h : Flow.adjust_dp gas s = some s') :
    s'.dp ≤ s.fps.dp_limit ∧
    (∀ (t : Flow) (n : ℕ), t.dp > t.fps.dp_limit →
      Flow.adjust_dp_loop (n + 1) t =
        Flow.adjust_dp_loop n (Flow.calc_dp (Flow.characterize_flow
          { t with N_channels :=
              ((⌈t.fps.m_dot / (t.A_flow * t.fps.rho *
                  Real.sqrt (2 * t.D_e * t.fps.dp_limit /
                    (t.f * t.L * t.fps.rho)))⌉ : ℤ) : ℝ) }))) := by
  constructor
  · obtain ⟨h1, h2⟩ := adjust_dp_loop_post gas _ s' h
    have hfps : (Flow.calc_dp s).fps = s.fps := rfl
    rw [hfps] at h2
    rw [← h2]
    exact h1
  · intro t n ht
    rw [Flow.adjust_dp_loop, if_pos ht]
    rfl

/-- Witness for C1: on `flowC1` the stored velocity is zero, the initial
pressure drop evaluates to 0 ≤ dp_limit = 1, and `adjust_dp` terminates at
once. -/
theorem C1_adjust_dp_postcondition_witness :
    Flow.adjust_dp 1 flowC1 = some (Flow.calc_dp flowC1) ∧
    (Flow.calc_dp flowC1).dp ≤ flowC1.fps.dp_limit := by
  have hdp : (Flow.calc_dp flowC1).dp = 0 := by
    show flowC1.f * flowC1.L * flowC1.fps.rho * flowC1.v * flowC1.v /
      (2 * flowC1.D_e) = 0
    norm_num [flowC1]
  have hguard : ¬ ((Flow.calc_dp flowC1).dp > (Flow.calc_dp flowC1).fps.dp_limit) := by
    rw [hdp]
    show ¬ ((0 : ℝ) > flowC1.fps.dp_limit)
    norm_num [flowC1]
  have heq : Flow.adjust_dp 1 flowC1 = some (Flow.calc_dp flowC1) := by
    rw [Flow.adjust_dp, Flow.adjust_dp_loop, if_neg hguard]
  exact ⟨heq, (C1_adjust_dp_postcondition 1 flowC1 _ heq).1⟩

theorem adjust_dp_loop_stuck :
    ∀ (gas : ℕ) (t : Flow), t.dp > t.fps.dp_limit →
      Flow.recomputed_dp t > t.fps.dp_limit →
      Flow.adjust_dp_loop gas t = none
  | 0, _, _, _ => rfl
  | gas + 1, t, h, h2 => by
    rw [Flow.adjust_dp_loop, if_pos h]
    exact adjust_dp_loop_stuck gas _ h2 h2

/-- C2 is refuted: an `adjust_dp` loop pass has no effect on the
recomputed pressure drop, because `characterize_flow` reads only geometry
and coolant properties and never `N_channels`; consequently, on any state
whose stored and recomputed pressure drops both exceed the limit, the loop
never terminates, however large the iteration budget. -/
theorem C2_adjust_dp_never_terminates (s : Flow)
    (h0 : (Flow.calc_dp s).dp > s.fps.dp_limit)
    (h1 : Flow.recomputed_dp s > s.fps.dp_limit) :
    (∀ t : Flow,
      (Flow.calc_dp (Flow.characterize_flow
        { t with N_channels := t.get_dp_constrained_Nchannels })).dp =
        Flow.recomputed_dp t) ∧
    ∀ gas : ℕ, Flow.adjust_dp gas s = none := by
  refine ⟨fun t => rfl, fun gas => ?_⟩
  rw [Flow.adjust_dp]
  exact adjust_dp_loop_stuck gas (Flow.calc_dp s) h0 h1

/-- Witness for C2 on the concrete state `flowC2`: the stored pressure drop
is 5e6 > 1, the recomputed one is about 3.26e7 > 1, and `adjust_dp` fails
to terminate within any budget, here 50. -/
theorem C2_adjust_dp_never_terminates_witness :
    ((Flow.calc_dp flowC2).dp > flowC2.fps.dp_limit ∧
      Flow.recomputed_dp flowC2 > flowC2.fps.dp_limit) ∧
    Flow.adjust_dp 50 flowC2 = none := by
  have h0 : (Flow.calc_dp flowC2).dp > flowC2.fps.dp_limit := by
    show flowC2.f * flowC2.L * flowC2.fps.rho * flowC2.v * flowC2.v /
      (2 * flowC2.D_e) > flowC2.fps.dp_limit
    norm_num [flowC2]
  have h1 : Flow.recomputed_dp flowC2 > flowC2.fps.dp_limit := by
    norm_num [Flow.recomputed_dp, Flow.calc_dp, Flow.characterize_flow,
      flowC2, pipeflow_nd, pipeflow_laminar, Real.sqrt_one, one_zpow,
      Real.one_rpow]
  exact ⟨⟨h0, h1⟩, (C2_adjust_dp_never_terminates flowC2 h0 h1).2 50⟩

theorem compute_Q_inputs_only (s : Flow) (g : ℝ) :
    (s.compute_Q_from_guess g).2 =
      ((flowOfInputs s.coreInputs).compute_Q_from_guess g).2 := rfl

/-- C3: `find_n_channels` issues one bounded scalar minimization over the
fuel-fraction interval (0.01, 1) with absolute tolerance 1e-3 on the
variable, whose objective is the squared error between computed generation
and the thermal power target; and the objective fully re-derives the state
from the trial fuel fraction: its value depends only on the constructor
inputs and the guess, never on previously mutated scratch state. -/
theorem C3_find_n_channels_call (flow : Flow) :
    (find_n_channels flow).lower = 0.01 ∧
    (find_n_channels flow).upper = 1 ∧
    (find_n_channels flow).method = "Bounded" ∧
    (find_n_channels flow).xatol = 1e-3 ∧
    (∀ g, (find_n_channels flow).objective g =
      ((flow.compute_Q_from_guess g).1.gen_Q - flow.Q_therm) ^ 2) ∧
    (∀ (t : Flow) (g : ℝ), flow.inputsEq t →
      (flow.compute_Q_from_guess g).2 = (t.compute_Q_from_guess g).2) := by
  refine ⟨rfl, rfl, rfl, rfl, fun g => rfl, fun t g h => ?_⟩
  obtain ⟨h1, h2, h3, h4, h5, h6, h7, h8, h9⟩ := h
  have hci : flow.coreInputs = t.coreInputs := by
    unfold Flow.coreInputs
    rw [h1, h2, h3, h4, h5, h6, h7, h8, h9]
  rw [compute_Q_inputs_only flow g, compute_Q_inputs_only t g, hci]

/-- Witness for C3: `flowA` and `flowB` share constructor inputs but differ
in mutated scratch fields; the objective agrees on them at guess 0.3. -/
theorem C3_find_n_channels_call_witness :
    flowA.inputsEq flowB ∧
    (flowA.compute_Q_from_guess 0.3).2 = (flowB.compute_Q_from_guess 0.3).2 :=
  ⟨⟨rfl, rfl, rfl, rfl, rfl, rfl, rfl, rfl, rfl⟩,
    (C3_find_n_channels_call flowA).2.2.2.2.2 flowB 0.3
      ⟨rfl, rfl, rfl, rfl, rfl, rfl, rfl, rfl, rfl⟩⟩

theorem rpow_0512_twothirds : (0.512 : ℝ) ^ ((2 : ℝ) / 3) = 0.64 := by
  have h1 : (0.512 : ℝ) = 0.8 ^ (3 : ℝ) := by
    rw [show (3 : ℝ) = ((3 : ℕ) : ℝ) from by norm_num, Real.rpow_natCast]
    norm_num
  rw [h1, ← Real.rpow_mul (by norm_num : (0 : ℝ) ≤ 0.8),
    show (3 : ℝ) * (2 / 3) = 2 from by norm_num,
    show (2 : ℝ) = ((2 : ℕ) : ℝ) from by norm_num, Real.rpow_natCast]
  norm_num

theorem log_ten_bounds : (2.2794 : ℝ) ≤ Real.log 10 ∧ Real.log 10 ≤ 2.3296 := by
  have hl : Real.log 10 = 3 * Real.log 2 + Real.log (5 / 4) := by
    rw [show (10 : ℝ) = 2 ^ (3 : ℕ) * (5 / 4) from by norm_num,
      Real.log_mul (by norm_num) (by norm_num), Real.log_pow]
    norm_num
  have h2a := Real.log_two_gt_d9
  have h2b := Real.log_two_lt_d9
  have h54a : (0.2 : ℝ) ≤ Real.log (5 / 4) := by
    have h := Real.one_sub_inv_le_log_of_pos (show (0 : ℝ) < 5 / 4 by norm_num)
    have : (1 : ℝ) - (5 / 4)⁻¹ = 0.2 := by norm_num
    linarith
  have h54b : Real.log (5 / 4) ≤ 0.25 := by
    have h := Real.log_le_sub_one_of_pos (show (0 : ℝ) < 5 / 4 by norm_num)
    have : (5 : ℝ) / 4 - 1 = 0.25 := by norm_num
    linarith
  constructor <;> rw [hl] <;> linarith

theorem C9f_bounds (Re : ℝ) (h4 : 4000 ≤ Re) (h8 : Re ≤ 8000) :
    369.2 ≤ C9f Re ∧ C9f Re ≤ 434.5 := by
  have hRe0 : (0 : ℝ) < Re := by linarith
  have hden : (0 : ℝ) < Re + 395.9 := by linarith
  obtain ⟨ε, hε⟩ : ∃ x : ℝ, x = 7.627 / (Re + 395.9) := ⟨_, rfl⟩
  have hε0 : 0 < ε := by rw [hε]; positivity
  have hεub : ε ≤ 0.001736 := by
    rw [hε, div_le_iff hden]
    nlinarith
  obtain ⟨L, hL⟩ : ∃ x : ℝ, x = Real.log (1 + ε) := ⟨_, rfl⟩
  have hL0 : 0 ≤ L := by
    rw [hL]
    exact Real.log_nonneg (by linarith)
  have hLub : L ≤ ε := by
    have h := Real.log_le_sub_one_of_pos (show (0 : ℝ) < 1 + ε by linarith)
    rw [hL]
    linarith
  have hRinv : 1.975 / Re ≤ 0.00049375 := by
    rw [div_le_iff hRe0]
    nlinarith
  have hRinv0 : (0 : ℝ) ≤ 1.975 / Re := by positivity
  obtain ⟨A, hA⟩ : ∃ x : ℝ, x = 3.93 / 3.71 - 1.975 / Re * L := ⟨_, rfl⟩
  have hA_ub : A ≤ 1.0593 := by
    rw [hA]
    nlinarith [mul_nonneg hRinv0 hL0]
  have hA_lb : 1.059297 ≤ A := by
    rw [hA]
    have hprod : 1.975 / Re * L ≤ 0.00049375 * 0.001736 :=
      mul_le_mul hRinv (le_trans hLub hεub) hL0 (by norm_num)
    nlinarith
  have hA0 : (0 : ℝ) < A := by linarith
  have hlogA_ub : Real.log A ≤ 0.0593 := by
    have h := Real.log_le_sub_one_of_pos hA0
    linarith
  have hlogA_lb : (0.0559 : ℝ) ≤ Real.log A := by
    have h1 := Real.one_sub_inv_le_log_of_pos hA0
    have h2 : A⁻¹ ≤ (1.059297 : ℝ)⁻¹ := inv_le_inv_of_le (by norm_num) hA_lb
    have h3 : ((1.059297 : ℝ))⁻¹ ≤ 0.9441 := by norm_num
    linarith
  obtain ⟨hl10a, hl10b⟩ := log_ten_bounds
  have hl10pos : (0 : ℝ) < Real.log 10 := by linarith
  obtain ⟨q, hq⟩ : ∃ x : ℝ, x = Real.log A / Real.log 10 := ⟨_, rfl⟩
  have hq_lb : (0.02399 : ℝ) ≤ q := by
    rw [hq, le_div_iff hl10pos]
    nlinarith
  have hq_ub : q ≤ 0.02602 := by
    rw [hq, div_le_iff hl10pos]
    nlinarith
  have hq0 : (0 : ℝ) < q := by linarith
  have hform : C9f Re = (4 * q ^ 2)⁻¹ := by
    rw [C9f, ← hε, ← hL, ← hA, ← hq, zpow_neg,
      show ((2 : ℤ)) = ((2 : ℕ) : ℤ) from rfl, zpow_natCast]
    congr 1
    ring
  rw [hform]
  have hqsq_ub : q ^ 2 ≤ 0.02602 ^ 2 := pow_le_pow_left (by linarith) hq_ub 2
  have hqsq_lb : 0.02399 ^ 2 ≤ q ^ 2 := pow_le_pow_left (by norm_num) hq_lb 2
  have hpos : (0 : ℝ) < 4 * q ^ 2 := by positivity
  constructor
  · rw [inv_eq_one_div, le_div_iff hpos]
    linarith [hqsq_ub]
  · rw [inv_eq_one_div, div_le_iff hpos]
    linarith [hqsq_lb]

theorem C9_Nu_form (Re : ℝ) :
    (pipeflow_turbulent Re 0.512 1 3.93).1 =
      ((C9f Re / 8) * (Re - 1000) * 0.512) /
        (1 + 12.7 * Real.sqrt (C9f Re / 8) * (0.64 - 1)) := by
  simp only [pipeflow_turbulent, C9f,
    show ((3.93 : ℝ) > 1e-5) = True from by norm_num,
    show ((0.512 : ℝ) < 0.5) = False from by norm_num, if_true, if_false]
  rw [show (3.93 : ℝ) / 3.93 = 1 from by norm_num, Real.one_rpow,
    rpow_0512_twothirds]

theorem C9_den_bounds (f : ℝ) (hf1 : 369.2 ≤ f) (hf2 : f ≤ 434.5) :
    1 + 12.7 * Real.sqrt (f / 8) * ((0.64 : ℝ) - 1) ≤ -30.04 ∧
    (-32.7 : ℝ) ≤ 1 + 12.7 * Real.sqrt (f / 8) * ((0.64 : ℝ) - 1) := by
  have hs1 : (6.79 : ℝ) ≤ Real.sqrt (f / 8) := by
    rw [show (6.79 : ℝ) = Real.sqrt (6.79 ^ 2) from
      (Real.sqrt_sq (by norm_num)).symm]
    exact Real.sqrt_le_sqrt (by nlinarith)
  have hs2 : Real.sqrt (f / 8) ≤ 7.37 := by
    rw [show (7.37 : ℝ) = Real.sqrt (7.37 ^ 2) from
      (Real.sqrt_sq (by norm_num)).symm]
    exact Real.sqrt_le_sqrt (by nlinarith)
  constructor <;> nlinarith

/-- C9 is refuted: the Gnielinski Nusselt number returned by
`pipeflow_turbulent` is not monotonically non-decreasing in Re for every
fixed Pr ≥ 0.5, LD and relative roughness.  At relative roughness 3.93 and
Pr = 0.512 the Offor-Alabi friction factor is around 400, which drives the
Gnielinski denominator negative (about -31), so the returned Nusselt number
is negative and strictly decreases from Re = 4000 to Re = 8000. -/
theorem C9_turbulent_Nu_not_monotone :
    (3000 : ℝ) < 4000 ∧ (4000 : ℝ) < 8000 ∧ (0.5 : ℝ) ≤ 0.512 ∧
    (pipeflow_turbulent 8000 0.512 1 3.93).1 <
      (pipeflow_turbulent 4000 0.512 1 3.93).1 := by
  refine ⟨by norm_num, by norm_num, by norm_num, ?_⟩
  obtain ⟨hf4a, hf4b⟩ := C9f_bounds 4000 (by norm_num) (by norm_num)
  obtain ⟨hf8a, hf8b⟩ := C9f_bounds 8000 (by norm_num) (by norm_num)
  obtain ⟨hd4a, hd4b⟩ := C9_den_bounds (C9f 4000) hf4a hf4b
  obtain ⟨hd8a, hd8b⟩ := C9_den_bounds (C9f 8000) hf8a hf8b
  rw [C9_Nu_form 4000, C9_Nu_form 8000]
  have hden4 : 1 + 12.7 * Real.sqrt (C9f 4000 / 8) * ((0.64 : ℝ) - 1) < 0 := by
    linarith
  have hden8 : 1 + 12.7 * Real.sqrt (C9f 8000 / 8) * ((0.64 : ℝ) - 1) < 0 := by
    linarith
  have hNu4 : (-2800 : ℝ) ≤ ((C9f 4000 / 8) * ((4000 : ℝ) - 1000) * 0.512) /
      (1 + 12.7 * Real.sqrt (C9f 4000 / 8) * (0.64 - 1)) := by
    rw [le_div_iff_of_neg hden4]
    nlinarith
  have hNu8 : ((C9f 8000 / 8) * ((8000 : ℝ) - 1000) * 0.512) /
      (1 + 12.7 * Real.sqrt (C9f 8000 / 8) * (0.64 - 1)) ≤ -5000 := by
    rw [div_le_iff_of_neg hden8]
    nlinarith
  linarith

end SCO2
